import Mathlib

/-!
Verification development for the Financial Risk and Compliance Platform
(risk analytics and alerting engine).

The Go source is shallowly embedded over exact rationals:
`float64` and `decimal.Decimal` values become `ℚ`, `math.Sqrt` becomes an
abstract parameter `sqrtFn : ℚ → ℚ` (theorems that need it assume it is
nonnegative on nonnegative inputs, which is true of `math.Sqrt`), and the
stream of Box-Muller normal draws used by the Monte-Carlo simulation becomes
an abstract `zs : ℕ → ℚ` indexed by draw order.  Go's float division, which
yields a non-finite value (NaN or ±Inf) on a zero divisor, is modelled by
`fdiv : ℚ → ℚ → Option ℚ` with `none` standing for "not a finite number".
Go maps become association lists; `sort.Float64s` becomes an ascending
insertion sort.
-/

namespace RiskMonitor

/-- `models.Position` — the fields read by the risk engine. -/
structure Position where
  symbol : String
  quantity : ℚ
  averagePrice : ℚ
  currentPrice : ℚ
  marketValue : ℚ
  assetType : String
  liquidity : String
  deriving Repr, DecidableEq

/-- Go float division: `none` models the non-finite result (NaN or ±Inf)
produced by a zero divisor. -/
def fdiv (a b : ℚ) : Option ℚ :=
  if b = 0 then none else some (a / b)

/-! ## VaR calculator (`internal/risk/calculator/var.go`) -/

/-- `math.MaxInt32`, the initial minimum in `calculatePortfolioReturns`. -/
def maxInt32 : ℕ := 2147483647

/-- `calculateMean`: arithmetic mean, 0 for an empty list. -/
def calculateMean (data : List ℚ) : ℚ :=
  if data.length = 0 then 0 else data.sum / (data.length : ℚ)

/-- Sample variance with divisor `n − 1`, as computed inside `calculateStdDev`. -/
def calculateVariance (data : List ℚ) (mean : ℚ) : ℚ :=
  (data.map fun v => (v - mean) ^ 2).sum / ((data.length : ℚ) - 1)

/-- `calculateStdDev`: 0 when fewer than 2 samples, otherwise the square root
of the sample variance (`sqrtFn` models `math.Sqrt`). -/
def calculateStdDev (sqrtFn : ℚ → ℚ) (data : List ℚ) (mean : ℚ) : ℚ :=
  if data.length < 2 then 0 else sqrtFn (calculateVariance data mean)

/-- `calculateReturns`: simple percentage returns between consecutive prices;
entries with a nonpositive previous price stay at the zero the Go slice is
initialised with. -/
def calculateReturns (prices : List ℚ) : List ℚ :=
  if prices.length < 2 then [] else
    (List.range (prices.length - 1)).map fun i =>
      let prev := prices.getD i 0
      let curr := prices.getD (i + 1) 0
      if 0 < prev then (curr - prev) / prev else 0

/-- The percentile index `int((1−confidence)·n)` clamped to `n − 1`, as in
`historicalVaR` and `calculateExpectedShortfall` (`Rat.floor` is the
truncation of the nonnegative float product). -/
def percentileIdx (confidence : ℚ) (n : ℕ) : ℕ :=
  (Rat.floor ((1 - confidence) * (n : ℚ))).toNat.min (n - 1)

/-- `historicalVaR`: the pair `(VaR95, VaR99)` from historical simulation. -/
def historicalVaR (portfolioValue : ℚ) (returns : List ℚ) : ℚ × ℚ :=
  if returns = [] then (0, 0) else
    let sorted := List.insertionSort (· ≤ ·) returns
    let varAt := fun (c : ℚ) =>
      -(sorted.getD (percentileIdx c sorted.length) 0) * portfolioValue
    (varAt (95 / 100), varAt (99 / 100))

/-- `parametricVaR`: the pair `(VaR95, VaR99)` under a normal assumption,
with z-scores 1.645 and 2.326. -/
def parametricVaR (sqrtFn : ℚ → ℚ) (portfolioValue : ℚ) (returns : List ℚ) : ℚ × ℚ :=
  if returns = [] then (0, 0) else
    let mean := calculateMean returns
    let sd := calculateStdDev sqrtFn returns mean
    (-(mean - (1645 / 1000) * sd) * portfolioValue,
     -(mean - (2326 / 1000) * sd) * portfolioValue)

/-- Per-asset mean and standard deviation used by the Monte-Carlo method. -/
structure AssetStats where
  mean : ℚ
  stdDev : ℚ
  deriving Repr, DecidableEq

/-- The `assetStats` map built by `monteCarloVaR`: statistics of a symbol's
own return series, absent when the symbol has no usable history. -/
def assetStatsFor (sqrtFn : ℚ → ℚ) (priceHistory : List (String × List ℚ))
    (symbol : String) : Option AssetStats :=
  match priceHistory.lookup symbol with
  | none => none
  | some prices =>
      let rs := calculateReturns prices
      if rs = [] then none
      else some ⟨calculateMean rs, calculateStdDev sqrtFn rs (calculateMean rs)⟩

/-- One Monte-Carlo simulation pass over the positions.  The accumulator is
`(portfolioReturn, totalValue, draw counter)`; each position with statistics
consumes one normal draw `zs k` and contributes
`(mean + z·stdDev) · quantity · currentPrice`. -/
def mcSimOne (zs : ℕ → ℚ) (stats : String → Option AssetStats)
    (positions : List Position) (k0 : ℕ) : ℚ × ℕ :=
  let acc := positions.foldl
    (fun (a : ℚ × ℚ × ℕ) pos =>
      match stats pos.symbol with
      | none => a
      | some st =>
          let randomReturn := st.mean + zs a.2.2 * st.stdDev
          let positionValue := pos.quantity * pos.currentPrice
          (a.1 + randomReturn * positionValue, a.2.1 + positionValue, a.2.2 + 1))
    (0, 0, k0)
  (if 0 < acc.2.1 then acc.1 / acc.2.1 else 0, acc.2.2)

/-- The list of simulated portfolio returns (zero when the simulated total
value is not positive, as in the Go slice initialisation). -/
def mcSimulatedReturns (zs : ℕ → ℚ) (stats : String → Option AssetStats)
    (positions : List Position) : ℕ → ℕ → List ℚ
  | 0, _ => []
  | n + 1, k =>
      let step := mcSimOne zs stats positions k
      step.1 :: mcSimulatedReturns zs stats positions n step.2

/-- `monteCarloVaR`: guard on empty inputs, then the historical percentile
logic applied to the simulated return series. -/
def monteCarloVaR (sqrtFn : ℚ → ℚ) (zs : ℕ → ℚ) (portfolioValue : ℚ)
    (positions : List Position) (priceHistory : List (String × List ℚ))
    (numSimulations : ℕ) : ℚ × ℚ :=
  if positions = [] ∨ priceHistory = [] then (0, 0)
  else historicalVaR portfolioValue
    (mcSimulatedReturns zs (assetStatsFor sqrtFn priceHistory) positions numSimulations 0)

/-- The minimum history length across all symbols (`math.MaxInt32` start). -/
def minHistoryLength (priceHistory : List (String × List ℚ)) : ℕ :=
  priceHistory.foldl (fun m p => min m p.2.length) maxInt32

/-- `calculatePortfolioReturns`: daily portfolio returns over the shortest
common history; empty when there is no history or fewer than 2 aligned
points. -/
def calculatePortfolioReturns (positions : List Position)
    (priceHistory : List (String × List ℚ)) : List ℚ :=
  if priceHistory = [] then [] else
    let minLength := minHistoryLength priceHistory
    if minLength < 2 then [] else
      (List.range (minLength - 1)).map fun j =>
        let valueAt := fun (idx : ℕ) =>
          (positions.map fun pos =>
            match priceHistory.lookup pos.symbol with
            | none => 0
            | some prices =>
                if prices.length < minLength then 0
                else pos.quantity * prices.getD idx 0).sum
        let yesterday := valueAt j
        let today := valueAt (j + 1)
        if 0 < yesterday then (today - yesterday) / yesterday else 0

/-- `calculateExpectedShortfall`: mean of the sorted returns up to and
including the percentile index, negated and scaled. -/
def calculateExpectedShortfall (portfolioValue : ℚ) (returns : List ℚ)
    (confidence : ℚ) : ℚ :=
  if returns = [] then 0 else
    let sorted := List.insertionSort (· ≤ ·) returns
    let tail := sorted.take (percentileIdx confidence sorted.length + 1)
    if 0 < tail.length then -tail.sum / (tail.length : ℚ) * portfolioValue else 0

/-- One step of the max-drawdown scan: state is `(cumulative, peak, maxDD)`. -/
def drawdownStep (state : ℚ × ℚ × ℚ) (ret : ℚ) : ℚ × ℚ × ℚ :=
  let cumulative := state.1 * (1 + ret)
  let peak := if cumulative > state.2.1 then cumulative else state.2.1
  let dd := (peak - cumulative) / peak
  (cumulative, peak, if dd > state.2.2 then dd else state.2.2)

/-- `calculateMaxDrawdown`: maximum peak-to-trough decline, scaled. -/
def calculateMaxDrawdown (portfolioValue : ℚ) (returns : List ℚ) : ℚ :=
  if returns = [] then 0
  else (returns.foldl drawdownStep (1, 1, 0)).2.2 * portfolioValue

/-- `VaRResult` (var.go). -/
structure VaRResult where
  timeHorizon : ℕ
  var95 : ℚ
  var99 : ℚ
  historicalVaR95 : ℚ
  historicalVaR99 : ℚ
  parametricVaR95 : ℚ
  parametricVaR99 : ℚ
  monteCarloVaR95 : ℚ
  monteCarloVaR99 : ℚ
  expectedShortfall95 : ℚ
  expectedShortfall99 : ℚ
  maxDrawdown : ℚ
  deriving Repr, DecidableEq

/-- `CalculateVaR` (var.go:31-64).  The Go method returns `(*VaRResult, nil)`
on every path, so the embedding always produces `Except.ok`. -/
def CalculateVaR (sqrtFn : ℚ → ℚ) (zs : ℕ → ℚ) (portfolioValue : ℚ)
    (positions : List Position) (priceHistory : List (String × List ℚ))
    (timeHorizon : ℕ) : Except String VaRResult :=
  let portfolioReturns := calculatePortfolioReturns positions priceHistory
  let hist := historicalVaR portfolioValue portfolioReturns
  let param := parametricVaR sqrtFn portfolioValue portfolioReturns
  let mc := monteCarloVaR sqrtFn zs portfolioValue positions priceHistory 10000
  Except.ok
    { timeHorizon := timeHorizon
      var95 := (hist.1 + param.1 + mc.1) / 3
      var99 := (hist.2 + param.2 + mc.2) / 3
      historicalVaR95 := hist.1
      historicalVaR99 := hist.2
      parametricVaR95 := param.1
      parametricVaR99 := param.2
      monteCarloVaR95 := mc.1
      monteCarloVaR99 := mc.2
      expectedShortfall95 := calculateExpectedShortfall portfolioValue portfolioReturns (95 / 100)
      expectedShortfall99 := calculateExpectedShortfall portfolioValue portfolioReturns (99 / 100)
      maxDrawdown := calculateMaxDrawdown portfolioValue portfolioReturns }

/-- Whether an embedded fallible call succeeded. -/
def calcSucceeds {α : Type} (e : Except String α) : Bool :=
  match e with
  | .ok _ => true
  | .error _ => false

/-! ## Liquidity calculator (`internal/risk/calculator/liquidity.go`) -/

/-- `PriceLevel`: one order-book level. -/
structure PriceLevel where
  price : ℚ
  quantity : ℚ
  orders : ℤ
  deriving Repr, DecidableEq

/-- `MarketDepth`: top-of-book bid and ask levels. -/
structure MarketDepth where
  bidLevels : List PriceLevel
  askLevels : List PriceLevel
  deriving Repr, DecidableEq

/-- `MarketDataProvider`: the injected market-data capability set.  A `none`
depth models the Go `nil` pointer. -/
structure MarketDataProvider where
  getAverageDailyVolume : String → ℚ
  getBidAskSpread : String → ℚ
  getMarketDepth : String → Option MarketDepth
  getMarketCap : String → ℚ

/-- `assessMarketDepth`: the bid loop runs over `min 5 |bids|` levels, and the
ask loop over the possibly further-lowered `min (min 5 |bids|) |asks|`
levels, exactly as the Go `levels` variable is reused. -/
def assessMarketDepth (depth : MarketDepth) (positionValue : ℚ) : ℚ :=
  let levelsB := min 5 depth.bidLevels.length
  let totalBidValue := ((depth.bidLevels.take levelsB).map fun l => l.price * l.quantity).sum
  let levelsA := min levelsB depth.askLevels.length
  let totalAskValue := ((depth.askLevels.take levelsA).map fun l => l.price * l.quantity).sum
  let avgDepth := (totalBidValue + totalAskValue) / 2
  if avgDepth > positionValue * 2 then 1
  else if avgDepth > positionValue then 3 / 4
  else if avgDepth > positionValue * (1 / 2) then 1 / 2
  else if avgDepth > positionValue * (1 / 4) then 1 / 4
  else 0

/-- Deduction for the volume-ratio factor of the liquidity score.  In Go
`positionValue/avgVolume` with `avgVolume = 0` is `-Inf`, `NaN` or `+Inf`
for negative, zero and positive `positionValue`: `-Inf` satisfies the first
`< 0.01` branch (deduct 0) while `NaN` and `+Inf` fail every comparison and
fall through to the final `else` (deduct 25). -/
def volumeDeduction (positionValue avgVolume : ℚ) : ℚ :=
  if avgVolume = 0 then (if positionValue < 0 then 0 else 25)
  else
    let volumeRatio := positionValue / avgVolume
    if volumeRatio < 1 / 100 then 0
    else if volumeRatio < 1 / 10 then 5
    else if volumeRatio < 1 / 2 then 15
    else 25

/-- Deduction for the bid-ask-spread factor of the liquidity score. -/
def spreadDeduction (spread : ℚ) : ℚ :=
  if spread < 1 / 1000 then 0
  else if spread < 5 / 1000 then 10
  else if spread < 1 / 100 then 20
  else 25

/-- Deduction for the market-cap factor of the liquidity score. -/
def marketCapDeduction (marketCap : ℚ) : ℚ :=
  if marketCap > 10000000000 then 0
  else if marketCap > 2000000000 then 10
  else if marketCap > 200000000 then 20
  else 25

/-- Deduction for the market-depth factor: `25 − depthScore·25`, or the full
25 points when no depth data is available. -/
def depthDeduction (positionValue : ℚ) : Option MarketDepth → ℚ
  | some depth => 25 - assessMarketDepth depth positionValue * 25
  | none => 25

/-- `calculateLiquidityScore`: start at 100, subtract the four factor
deductions, floor at 0 (`math.Max(0, score)`). -/
def calculateLiquidityScore (avgVolume spread marketCap positionValue : ℚ)
    (depth : Option MarketDepth) : ℚ :=
  max 0 (100 - volumeDeduction positionValue avgVolume - spreadDeduction spread
    - marketCapDeduction marketCap - depthDeduction positionValue depth)

/-- `classifyLiquidity`: asset-type overrides first, then the general
score/days rule. -/
def classifyLiquidity (score daysToLiquidate : ℚ) (assetType : String) : String :=
  if assetType = "GOVERNMENT_BOND" ∨ assetType = "CASH" ∨ assetType = "MONEY_MARKET" then
    "HIGHLY_LIQUID"
  else if assetType = "CORPORATE_BOND" then
    (if score > 70 then "LIQUID" else "SEMI_LIQUID")
  else if assetType = "CRYPTO" then
    (if score > 80 then "LIQUID" else if score > 50 then "SEMI_LIQUID" else "ILLIQUID")
  else if score ≥ 85 ∧ daysToLiquidate ≤ 1 then "HIGHLY_LIQUID"
  else if score ≥ 70 ∧ daysToLiquidate ≤ 3 then "LIQUID"
  else if score ≥ 50 ∧ daysToLiquidate ≤ 7 then "SEMI_LIQUID"
  else "ILLIQUID"

/-- `calculateDaysToLiquidate`: 999 on zero volume, otherwise
`quantity / (avgDailyVolume · participationRate)`.  Every call site in the
repository passes a nonzero participation rate (0.1, 0.05 or 0.02), so the
rational division agrees with the Go float division there. -/
def calculateDaysToLiquidate (quantity avgDailyVolume participationRate : ℚ) : ℚ :=
  if avgDailyVolume = 0 then 999
  else quantity / (avgDailyVolume * participationRate)

/-- `calculateMarketImpact`: square-root impact model capped at 50%. -/
def calculateMarketImpact (sqrtFn : ℚ → ℚ) (quantity avgDailyVolume spread : ℚ) : ℚ :=
  if avgDailyVolume = 0 then 1 / 2
  else min ((1 / 10) * sqrtFn (quantity / avgDailyVolume) + spread / 2) (1 / 2)

/-- The bid-walking loop of `calculateImmediateLiquidationValue`; state is
`(remainingQty, liquidationValue)` and the loop breaks once the remaining
quantity is nonpositive. -/
def fillBids : List PriceLevel → ℚ × ℚ → ℚ × ℚ
  | [], state => state
  | level :: rest, state =>
      if state.1 ≤ 0 then state
      else
        let fillQty := min state.1 level.quantity
        fillBids rest (state.1 - fillQty, state.2 + fillQty * level.price)

/-- `calculateImmediateLiquidationValue`: walk the bids; a 5% haircut when no
depth data, a further 10% discount at the last bid price for any unfilled
remainder. -/
def calculateImmediateLiquidationValue (position : Position)
    (depth : Option MarketDepth) : ℚ :=
  match depth with
  | none => position.marketValue * (95 / 100)
  | some d =>
      if d.bidLevels = [] then position.marketValue * (95 / 100)
      else
        let res := fillBids d.bidLevels (position.quantity, 0)
        if 0 < res.1 then
          res.2 + res.1 * (d.bidLevels.getLastD ⟨0, 0, 0⟩).price * (9 / 10)
        else res.2

/-- `PositionLiquidity` (liquidity.go). -/
structure PositionLiquidity where
  symbol : String
  assetType : String
  quantity : ℚ
  marketValue : ℚ
  liquidityScore : ℚ
  liquidityClass : String
  daysToLiquidate : ℚ
  marketImpact : ℚ
  bidAskSpread : ℚ
  spreadCost : ℚ
  immediateLiquidationValue : ℚ
  orderlyLiquidationValue : ℚ
  deriving Repr, DecidableEq

/-- `analyzePositionLiquidity`: per-position metrics from the injected market
data (10% participation rate for days-to-liquidate). -/
def analyzePositionLiquidity (sqrtFn : ℚ → ℚ) (md : MarketDataProvider)
    (position : Position) : PositionLiquidity :=
  let avgDailyVolume := md.getAverageDailyVolume position.symbol
  let bidAskSpread := md.getBidAskSpread position.symbol
  let marketCap := md.getMarketCap position.symbol
  let marketDepth := md.getMarketDepth position.symbol
  let days := calculateDaysToLiquidate position.quantity avgDailyVolume (1 / 10)
  let impact := calculateMarketImpact sqrtFn position.quantity avgDailyVolume bidAskSpread
  let score := calculateLiquidityScore avgDailyVolume bidAskSpread marketCap
    position.marketValue marketDepth
  { symbol := position.symbol
    assetType := position.assetType
    quantity := position.quantity
    marketValue := position.marketValue
    liquidityScore := score
    liquidityClass := classifyLiquidity score days position.assetType
    daysToLiquidate := days
    marketImpact := impact
    bidAskSpread := bidAskSpread
    spreadCost := position.marketValue * bidAskSpread
    immediateLiquidationValue := calculateImmediateLiquidationValue position marketDepth
    orderlyLiquidationValue := position.marketValue * (1 - impact) }

/-- Fraction of a position's market value counted as liquid, by class
(`CalculateLiquidity`'s switch: 100% / 75% / 25% / 0%). -/
def liquidFactor (liquidityClass : String) : ℚ :=
  if liquidityClass = "HIGHLY_LIQUID" then 1
  else if liquidityClass = "LIQUID" then 3 / 4
  else if liquidityClass = "SEMI_LIQUID" then 1 / 4
  else 0

/-- Fraction of a position's market value counted as illiquid, by class. -/
def illiquidFactor (liquidityClass : String) : ℚ :=
  if liquidityClass = "SEMI_LIQUID" then 3 / 4
  else if liquidityClass = "ILLIQUID" then 1
  else 0

/-- The participation rate per market condition in
`calculateLiquidationTime`. -/
def participationRateFor (marketCondition : String) : ℚ :=
  if marketCondition = "STRESSED" then 5 / 100
  else if marketCondition = "CRISIS" then 2 / 100
  else 1 / 10

/-- `calculateLiquidationTime`: the slowest position gates the portfolio. -/
def calculateLiquidationTime (md : MarketDataProvider) (positions : List Position)
    (marketCondition : String) : ℚ :=
  positions.foldl
    (fun maxDays pos =>
      let days := calculateDaysToLiquidate pos.quantity
        (md.getAverageDailyVolume pos.symbol) (participationRateFor marketCondition)
      if days > maxDays then days else maxDays) 0

/-- The `totalLiquidValue` accumulated by `CalculateLiquidity`'s loop. -/
def totalLiquidValue (sqrtFn : ℚ → ℚ) (md : MarketDataProvider)
    (positions : List Position) : ℚ :=
  (positions.map fun p =>
    let pl := analyzePositionLiquidity sqrtFn md p
    liquidFactor pl.liquidityClass * pl.marketValue).sum

/-- The `totalIlliquidValue` accumulated by `CalculateLiquidity`'s loop. -/
def totalIlliquidValue (sqrtFn : ℚ → ℚ) (md : MarketDataProvider)
    (positions : List Position) : ℚ :=
  (positions.map fun p =>
    let pl := analyzePositionLiquidity sqrtFn md p
    illiquidFactor pl.liquidityClass * pl.marketValue).sum

/-- The running `weightedLiquidityScore` sum: each position adds
`score · (marketValue / portfolioValue)`; a zero portfolio value makes every
term non-finite, poisoning the float sum. -/
def weightedScoreSum (sqrtFn : ℚ → ℚ) (md : MarketDataProvider)
    (positions : List Position) (portfolioValue : ℚ) : Option ℚ :=
  positions.foldl
    (fun acc p =>
      let pl := analyzePositionLiquidity sqrtFn md p
      match acc, fdiv pl.marketValue portfolioValue with
      | some a, some w => some (a + pl.liquidityScore * w)
      | _, _ => none)
    (some 0)

/-- `LiquidityResult` (liquidity.go), restricted to the fields computed
directly by `CalculateLiquidity`'s aggregation pass.  The three derived
diagnostics (`liquidityAdjustedVaR`, `liquidityHealth`, `alerts`) are
produced by separate downstream helpers and are not part of any verified
property. -/
structure LiquidityResult where
  portfolioValue : ℚ
  liquidityRatio : Option ℚ
  illiquidityRatio : Option ℚ
  weightedLiquidityScore : Option ℚ
  normalMarketDays : ℚ
  stressedMarketDays : ℚ
  crisisMarketDays : ℚ
  positions : List PositionLiquidity

/-- The result record built by `CalculateLiquidity` (liquidity.go:46-99).
The ratio fields are the unguarded float divisions
`totalLiquidValue / portfolioValue` and
`totalIlliquidValue / portfolioValue`. -/
def CalculateLiquidityResult (sqrtFn : ℚ → ℚ) (md : MarketDataProvider)
    (positions : List Position) (portfolioValue : ℚ) : LiquidityResult :=
  { portfolioValue := portfolioValue
    liquidityRatio := fdiv (totalLiquidValue sqrtFn md positions) portfolioValue
    illiquidityRatio := fdiv (totalIlliquidValue sqrtFn md positions) portfolioValue
    weightedLiquidityScore := weightedScoreSum sqrtFn md positions portfolioValue
    normalMarketDays := calculateLiquidationTime md positions "NORMAL"
    stressedMarketDays := calculateLiquidationTime md positions "STRESSED"
    crisisMarketDays := calculateLiquidationTime md positions "CRISIS"
    positions := positions.map (analyzePositionLiquidity sqrtFn md) }

/-- `CalculateLiquidity` returns `(result, nil)` on every path. -/
def CalculateLiquidity (sqrtFn : ℚ → ℚ) (md : MarketDataProvider)
    (positions : List Position) (portfolioValue : ℚ) : Except String LiquidityResult :=
  Except.ok (CalculateLiquidityResult sqrtFn md positions portfolioValue)

/-! ## Decimal-based liquidity calculator (services version) -/

/-- The decimal-based `LiquidityCalculator` with its two thresholds. -/
structure LiquidityCalculatorD where
  highLiquidityThreshold : ℚ
  mediumLiquidityThreshold : ℚ
  deriving Repr, DecidableEq

/-- `NewLiquidityCalculator()`: thresholds 0.7 and 0.2. -/
def NewLiquidityCalculatorD : LiquidityCalculatorD :=
  { highLiquidityThreshold := 7 / 10, mediumLiquidityThreshold := 2 / 10 }

/-- The liquidity breakdown map: total market value per liquidity bucket
(`decimal` arithmetic is exact, hence plain `ℚ`). -/
def liquidityBreakdown (positions : List Position) (bucket : String) : ℚ :=
  ((positions.filter fun p => p.liquidity = bucket).map Position.marketValue).sum

/-- `CalculateLiquidityRatio`: HIGH-bucket value over total position value,
short-circuiting to 0 when the total is zero. -/
def CalculateLiquidityRatio (positions : List Position) : ℚ :=
  let totalValue := (positions.map Position.marketValue).sum
  if totalValue = 0 then 0 else liquidityBreakdown positions "HIGH" / totalValue

/-- `AssessLiquidityRisk`: LOW_RISK at or above the high threshold,
MEDIUM_RISK at or above the medium threshold, HIGH_RISK below. -/
def AssessLiquidityRisk (l : LiquidityCalculatorD) (liquidityRatio : ℚ) : String :=
  if liquidityRatio ≥ l.highLiquidityThreshold then "LOW_RISK"
  else if liquidityRatio ≥ l.mediumLiquidityThreshold then "MEDIUM_RISK"
  else "HIGH_RISK"

/-- The `riskAssessment` string computed by
`RiskEngineService.CalculateLiquidityRisk` (risk_engine.go:599-604):
thresholds 0.3 and 0.7. -/
def riskAssessmentOfRatio (liquidityRatio : ℚ) : String :=
  if liquidityRatio < 3 / 10 then "HIGH_RISK"
  else if liquidityRatio < 7 / 10 then "MEDIUM_RISK"
  else "LOW_RISK"

/-! ## Risk engine (`internal/services/risk_engine.go`) -/

/-- `RiskViolation` — the fields the scoring and approval logic reads. -/
structure RiskViolation where
  vtype : String
  severity : String
  deriving Repr, DecidableEq

/-- `TradeRiskAnalysis` — the fields the scoring and approval logic reads. -/
structure TradeRiskAnalysis where
  portfolioImpact : ℚ
  concentrationImpact : ℚ
  liquidityImpact : ℚ
  violations : List RiskViolation
  riskScore : ℚ
  deriving Repr, DecidableEq

/-- Points per violation severity (the `switch` in `calculateRiskScore`). -/
def severityPoints (severity : String) : ℚ :=
  if severity = "CRITICAL" then 30
  else if severity = "VIOLATION" then 20
  else if severity = "WARNING" then 10
  else 0

/-- `calculateRiskScore` (risk_engine.go:355-380): severity points plus
weighted impacts, capped at 100. -/
def calculateRiskScore (analysis : TradeRiskAnalysis) : ℚ :=
  let score := analysis.violations.foldl (fun s v => s + severityPoints v.severity) 0
    + analysis.portfolioImpact * 20
    + analysis.concentrationImpact * 100 * 15
    + analysis.liquidityImpact * 15
  if score > 100 then 100 else score

/-- `determineApprovalStatus` (risk_engine.go:382-403): result is
`(approved, requiresReview)`. -/
def determineApprovalStatus (analysis : TradeRiskAnalysis) : Bool × Bool :=
  let criticalCount :=
    (analysis.violations.filter fun v => v.severity = "CRITICAL").length
  if 0 < criticalCount then (false, false)
  else if analysis.riskScore > 70 ∨ 2 < analysis.violations.length then (false, true)
  else if analysis.riskScore < 30 ∧ analysis.violations.length = 0 then (true, false)
  else (false, true)

/-- Number of violations of a given severity. -/
def countSeverity (violations : List RiskViolation) (severity : String) : ℕ :=
  (violations.filter fun v => v.severity = severity).length

/-- The risk score exactly as the specification words it: 30 points per
CRITICAL, 20 per VIOLATION, 10 per WARNING, plus `portfolioImpact×20 +
concentrationImpact×100×15 + liquidityImpact×15`, capped at 100. -/
def riskScoreSpec (analysis : TradeRiskAnalysis) : ℚ :=
  min (30 * (countSeverity analysis.violations "CRITICAL" : ℚ)
      + 20 * (countSeverity analysis.violations "VIOLATION" : ℚ)
      + 10 * (countSeverity analysis.violations "WARNING" : ℚ)
      + analysis.portfolioImpact * 20
      + analysis.concentrationImpact * 100 * 15
      + analysis.liquidityImpact * 15)
    100

/-- The approval decision exactly as the specification words it: any CRITICAL
violation → (false, false); else riskScore>70 or count>2 → (false, true);
else riskScore<30 and zero violations → (true, false); else (false, true). -/
def approvalSpec (analysis : TradeRiskAnalysis) : Bool × Bool :=
  if analysis.violations.any (fun v => v.severity = "CRITICAL") then (false, false)
  else if analysis.riskScore > 70 ∨ 2 < analysis.violations.length then (false, true)
  else if analysis.riskScore < 30 ∧ analysis.violations.length = 0 then (true, false)
  else (false, true)

/-! ## Alert engine (`internal/services/alert_generator.go`) -/

/-- `models.Alert` — the fields the deduplication logic reads and writes. -/
structure Alert where
  portfolioId : ℕ
  alertType : String
  severity : String
  status : String
  createdAt : ℤ
  deriving Repr, DecidableEq

/-- `alertExists` (alert_generator.go:314-324): is there an ACTIVE alert of
this (portfolio, type) created strictly after `now − within`?  (`within` and
`createdAt` are in seconds.) -/
def alertExists (db : List Alert) (now : ℤ) (portfolioId : ℕ) (alertType : String)
    (within : ℤ) : Bool :=
  db.any fun a =>
    decide (a.portfolioId = portfolioId ∧ a.alertType = alertType ∧
      a.status = "ACTIVE" ∧ now - within < a.createdAt)

/-- The shared generate-then-store pattern of every `generate*Alert`: suppress
when `alertExists`, otherwise persist a new ACTIVE alert stamped `now` and
publish it.  Returns the new store and whether a publish happened. -/
def raiseAlert (db : List Alert) (now : ℤ) (portfolioId : ℕ) (alertType : String)
    (window : ℤ) (severity : String) : List Alert × Bool :=
  if alertExists db now portfolioId alertType window then (db, false)
  else ({ portfolioId := portfolioId, alertType := alertType, severity := severity,
          status := "ACTIVE", createdAt := now } :: db, true)

/-- `generateVaRAlert`: RISK_BREACH with a 10-minute window; severity HIGH
for a CRITICAL VaR status, MEDIUM otherwise. -/
def generateVaRAlert (db : List Alert) (now : ℤ) (portfolioId : ℕ)
    (varStatus : String) : List Alert × Bool :=
  raiseAlert db now portfolioId "RISK_BREACH" 600
    (if varStatus = "CRITICAL" then "HIGH" else "MEDIUM")

/-- `generateLiquidityAlert`: LIQUIDITY_RISK with a 15-minute window;
severity HIGH for HIGH_RISK, MEDIUM otherwise. -/
def generateLiquidityAlert (db : List Alert) (now : ℤ) (portfolioId : ℕ)
    (riskAssessment : String) : List Alert × Bool :=
  raiseAlert db now portfolioId "LIQUIDITY_RISK" 900
    (if riskAssessment = "HIGH_RISK" then "HIGH" else "MEDIUM")

/-- `generatePositionLimitAlert`: COMPLIANCE_VIOLATION with a 5-minute
window; severity HIGH when the most severe individual violation is CRITICAL
(`maxSeverity` is the string that loop computes). -/
def generatePositionLimitAlert (db : List Alert) (now : ℤ) (portfolioId : ℕ)
    (maxSeverity : String) : List Alert × Bool :=
  raiseAlert db now portfolioId "COMPLIANCE_VIOLATION" 300
    (if maxSeverity = "CRITICAL" then "HIGH" else "MEDIUM")

/-- `generateAMLAlert`: SUSPICIOUS_ACTIVITY with a 1-hour window, always
HIGH. -/
def generateAMLAlert (db : List Alert) (now : ℤ) (portfolioId : ℕ) : List Alert × Bool :=
  raiseAlert db now portfolioId "SUSPICIOUS_ACTIVITY" 3600 "HIGH"

/-- `generateVelocityAlert`: SUSPICIOUS_ACTIVITY with a 30-minute window,
always MEDIUM. -/
def generateVelocityAlert (db : List Alert) (now : ℤ) (portfolioId : ℕ) : List Alert × Bool :=
  raiseAlert db now portfolioId "SUSPICIOUS_ACTIVITY" 1800 "MEDIUM"

/-- Number of persisted alerts of a given (portfolio, type). -/
def persistedCount (db : List Alert) (portfolioId : ℕ) (alertType : String) : ℕ :=
  (db.filter fun a => decide (a.portfolioId = portfolioId ∧ a.alertType = alertType)).length

/-- A market-data stub returning zero volume, zero spread, no depth and zero
market cap for every symbol, used for concrete evaluations. -/
def mdZero : MarketDataProvider where
  getAverageDailyVolume := fun _ => 0
  getBidAskSpread := fun _ => 0
  getMarketDepth := fun _ => none
  getMarketCap := fun _ => 0

/-- A concrete CASH position worth 100, used for concrete evaluations. -/
def cashPosition : Position :=
  { symbol := "CASH1", quantity := 100, averagePrice := 1, currentPrice := 1,
    marketValue := 100, assetType := "CASH", liquidity := "HIGH" }

/-! ## Supporting lemmas -/

theorem calculateVariance_nonneg (data : List ℚ) (mean : ℚ) :
    0 ≤ calculateVariance data mean := by
  unfold calculateVariance
  cases data with
  | nil => norm_num
  | cons x xs =>
      apply div_nonneg
      · apply List.sum_nonneg
        intro y hy
        simp only [List.mem_map] at hy
        obtain ⟨v, _, rfl⟩ := hy
        positivity
      · have h1 : (0 : ℚ) ≤ (xs.length : ℚ) := by positivity
        simp only [List.length_cons]
        push_cast
        linarith

theorem calculateStdDev_nonneg (sqrtFn : ℚ → ℚ) (hsq : ∀ x, 0 ≤ x → 0 ≤ sqrtFn x)
    (data : List ℚ) (mean : ℚ) : 0 ≤ calculateStdDev sqrtFn data mean := by
  unfold calculateStdDev
  split
  · exact le_refl 0
  · exact hsq _ (calculateVariance_nonneg data mean)

theorem sorted_getD_mono {l : List ℚ} (hs : List.Sorted (· ≤ ·) l) {i j : ℕ}
    (hij : i ≤ j) (hj : j < l.length) : l.getD i 0 ≤ l.getD j 0 := by
  have hi : i < l.length := lt_of_le_of_lt hij hj
  rw [List.getD_eq_getElem l 0 hi, List.getD_eq_getElem l 0 hj]
  rcases Nat.lt_or_ge i j with h | h
  · have hfin : (⟨i, hi⟩ : Fin l.length) < ⟨j, hj⟩ := h
    have := hs.rel_get_of_lt hfin
    simpa using this
  · have heq : i = j := le_antisymm hij h
    subst heq
    exact le_refl _

theorem ratFloor_eq_intFloor (q : ℚ) : Rat.floor q = ⌊q⌋ := by
  rw [Rat.floor_def', Rat.floor_def]

theorem percentileIdx_lt (c : ℚ) (n : ℕ) (hn : 0 < n) : percentileIdx c n < n := by
  unfold percentileIdx
  exact lt_of_le_of_lt (min_le_right _ _) (Nat.sub_lt hn Nat.one_pos)

theorem percentileIdx_99_le_95 (n : ℕ) :
    percentileIdx (99 / 100) n ≤ percentileIdx (95 / 100) n := by
  unfold percentileIdx
  refine min_le_min ?_ le_rfl
  apply Int.toNat_le_toNat
  rw [ratFloor_eq_intFloor, ratFloor_eq_intFloor]
  apply Int.floor_le_floor
  have h : (0 : ℚ) ≤ (n : ℚ) := Nat.cast_nonneg n
  nlinarith

theorem historicalVaR_le (portfolioValue : ℚ) (hpv : 0 ≤ portfolioValue)
    (returns : List ℚ) :
    (historicalVaR portfolioValue returns).1 ≤ (historicalVaR portfolioValue returns).2 := by
  by_cases h : returns = []
  · simp [historicalVaR, h]
  · have hlen : (List.insertionSort (· ≤ ·) returns).length = returns.length :=
      List.length_insertionSort _ _
    have hn : 0 < (List.insertionSort (· ≤ ·) returns).length := by
      rw [hlen]
      exact List.length_pos.mpr h
    have hsor : List.Sorted (· ≤ ·) (List.insertionSort (· ≤ ·) returns) :=
      List.sorted_insertionSort _ _
    have hidx := percentileIdx_99_le_95 (List.insertionSort (· ≤ ·) returns).length
    have h95 := percentileIdx_lt (95 / 100) _ hn
    have hmono := sorted_getD_mono hsor hidx h95
    simp only [historicalVaR, if_neg h]
    exact mul_le_mul_of_nonneg_right (neg_le_neg hmono) hpv

theorem parametricVaR_le (sqrtFn : ℚ → ℚ) (portfolioValue : ℚ) (returns : List ℚ)
    (hpv : 0 ≤ portfolioValue) (hsq : ∀ x, 0 ≤ x → 0 ≤ sqrtFn x) :
    (parametricVaR sqrtFn portfolioValue returns).1 ≤
      (parametricVaR sqrtFn portfolioValue returns).2 := by
  by_cases h : returns = []
  · simp [parametricVaR, h]
  · have hsd := calculateStdDev_nonneg sqrtFn hsq returns (calculateMean returns)
    simp only [parametricVaR, if_neg h]
    have hz : calculateMean returns
          - 2326 / 1000 * calculateStdDev sqrtFn returns (calculateMean returns)
        ≤ calculateMean returns
          - 1645 / 1000 * calculateStdDev sqrtFn returns (calculateMean returns) := by
      nlinarith
    exact mul_le_mul_of_nonneg_right (neg_le_neg hz) hpv

theorem monteCarloVaR_le (sqrtFn : ℚ → ℚ) (zs : ℕ → ℚ) (portfolioValue : ℚ)
    (positions : List Position) (priceHistory : List (String × List ℚ))
    (numSimulations : ℕ) (hpv : 0 ≤ portfolioValue) :
    (monteCarloVaR sqrtFn zs portfolioValue positions priceHistory numSimulations).1 ≤
      (monteCarloVaR sqrtFn zs portfolioValue positions priceHistory numSimulations).2 := by
  unfold monteCarloVaR
  split
  · norm_num
  · exact historicalVaR_le portfolioValue hpv _

/-! ## Claims -/

/-- **C1 counterexample**: the claim says `CalculateVaR` fails with an
`InsufficientDataError` when the positions list is empty; at the concrete
input of no positions and no price history the call succeeds. -/
theorem calculateVaR_succeeds_on_empty :
    calcSucceeds (CalculateVaR id (fun _ => 0) 100000 [] [] 1) = true := rfl

/-- **C1 (amended)**: `CalculateVaR` never fails — it returns a result on
every input (including empty positions and fewer than 2 aligned price
points); insufficient data yields an empty portfolio-return series and zero
Monte-Carlo output rather than an error. -/
theorem calculateVaR_never_fails (sqrtFn : ℚ → ℚ) (zs : ℕ → ℚ) (portfolioValue : ℚ)
    (positions : List Position) (priceHistory : List (String × List ℚ))
    (timeHorizon : ℕ) :
    calcSucceeds (CalculateVaR sqrtFn zs portfolioValue positions priceHistory timeHorizon)
        = true ∧
    (minHistoryLength priceHistory < 2 →
      calculatePortfolioReturns positions priceHistory = []) ∧
    (positions = [] →
      monteCarloVaR sqrtFn zs portfolioValue positions priceHistory 10000 = (0, 0)) := by
  refine ⟨rfl, ?_, ?_⟩
  · intro h
    by_cases hp : priceHistory = []
    · simp [calculatePortfolioReturns, hp]
    · simp [calculatePortfolioReturns, hp, h]
  · intro h
    unfold monteCarloVaR
    rw [if_pos (Or.inl h)]

/-- Witness for `calculateVaR_never_fails` at a one-point price history. -/
theorem calculateVaR_never_fails_witness :
    calcSucceeds (CalculateVaR id (fun _ => 0) 100000 [] [("AAPL", [1])] 1) = true ∧
    calculatePortfolioReturns [] [("AAPL", [1])] = [] ∧
    monteCarloVaR id (fun _ => 0) 100000 [] [("AAPL", [1])] 10000 = (0, 0) := by
  have h := calculateVaR_never_fails id (fun _ => 0) 100000 [] [("AAPL", [1])] 1
  exact ⟨h.1, h.2.1 (by decide), h.2.2 rfl⟩

/-- A 20-point strictly positive (already ascending) return series used as a
concrete input. -/
def posReturns : List ℚ :=
  [1, 2, 3, 4, 5, 6, 7, 8, 9, 10, 11, 12, 13, 14, 15, 16, 17, 18, 19, 20]

theorem posReturns_sorted : List.Sorted (· ≤ ·) posReturns := by
  norm_num [posReturns, List.sorted_cons]

theorem historicalVaR_posReturns (pv : ℚ) :
    historicalVaR pv posReturns = (-2 * pv, -1 * pv) := by
  have hsort : List.insertionSort (· ≤ ·) posReturns = posReturns :=
    posReturns_sorted.insertionSort_eq
  have hne : posReturns ≠ [] := by simp [posReturns]
  have hlen : posReturns.length = 20 := rfl
  have h95 : percentileIdx (95 / 100) 20 = 1 := by
    unfold percentileIdx
    rw [ratFloor_eq_intFloor]
    norm_num
  have h99 : percentileIdx (99 / 100) 20 = 0 := by
    unfold percentileIdx
    rw [ratFloor_eq_intFloor]
    norm_num
  simp only [historicalVaR, if_neg hne, hsort, hlen, h95, h99]
  norm_num [posReturns, List.getD_cons_succ, List.getD_cons_zero]

/-- **C2 counterexample**: with 20 strictly positive returns the 95% index is
1 and the 99% index is 0, so at portfolio value 100 the historical VaR95 is
−200 < 0, and at portfolio value −100 the ordering VaR99 ≥ VaR95 reverses. -/
theorem varMethods_counterexample :
    (historicalVaR 100 posReturns).1 < 0 ∧
    (historicalVaR (-100) posReturns).2 < (historicalVaR (-100) posReturns).1 := by
  simp only [historicalVaR_posReturns]
  norm_num

/-- **C2 (amended)**: for every return series and every *nonnegative*
portfolio value, each of the three methods independently satisfies
VaR99 ≥ VaR95 (the Monte-Carlo bound holds for every draw stream `zs`);
VaR95 itself may be negative. -/
theorem varMethods_var99_ge_var95 (sqrtFn : ℚ → ℚ) (zs : ℕ → ℚ) (portfolioValue : ℚ)
    (positions : List Position) (priceHistory : List (String × List ℚ))
    (numSimulations : ℕ) (returns : List ℚ)
    (hpv : 0 ≤ portfolioValue) (hsq : ∀ x, 0 ≤ x → 0 ≤ sqrtFn x) :
    (historicalVaR portfolioValue returns).1 ≤ (historicalVaR portfolioValue returns).2 ∧
    (parametricVaR sqrtFn portfolioValue returns).1 ≤
      (parametricVaR sqrtFn portfolioValue returns).2 ∧
    (monteCarloVaR sqrtFn zs portfolioValue positions priceHistory numSimulations).1 ≤
      (monteCarloVaR sqrtFn zs portfolioValue positions priceHistory numSimulations).2 :=
  ⟨historicalVaR_le portfolioValue hpv returns,
   parametricVaR_le sqrtFn portfolioValue returns hpv hsq,
   monteCarloVaR_le sqrtFn zs portfolioValue positions priceHistory numSimulations hpv⟩

/-- Witness for `varMethods_var99_ge_var95` at concrete inputs. -/
theorem varMethods_var99_ge_var95_witness :
    (historicalVaR 100 [1 / 10, -1 / 10]).1 ≤ (historicalVaR 100 [1 / 10, -1 / 10]).2 ∧
    (parametricVaR id 100 [1 / 10, -1 / 10]).1 ≤ (parametricVaR id 100 [1 / 10, -1 / 10]).2 ∧
    (monteCarloVaR id (fun _ => 0) 100 [] [] 0).1 ≤
      (monteCarloVaR id (fun _ => 0) 100 [] [] 0).2 :=
  varMethods_var99_ge_var95 id (fun _ => 0) 100 [] [] 0 [1 / 10, -1 / 10]
    (by norm_num) (fun _ hx => hx)

theorem filter_length_pos_iff_any {α : Type} (p : α → Bool) (l : List α) :
    0 < (l.filter p).length ↔ l.any p = true := by
  induction l with
  | nil => simp
  | cons x xs ih =>
      by_cases h : p x
      · simp [List.filter_cons, h]
      · simp [List.filter_cons, h, ih]

/-- **C3**: `determineApprovalStatus` implements exactly the specified
decision table (`approvalSpec`, written from the spec's words), and any
CRITICAL violation yields `approved = false`. -/
theorem determineApprovalStatus_matches_spec (a : TradeRiskAnalysis) :
    determineApprovalStatus a = approvalSpec a ∧
    (a.violations.any (fun v => v.severity = "CRITICAL") = true →
      (determineApprovalStatus a).1 = false) := by
  have hiff := filter_length_pos_iff_any (fun v => decide (v.severity = "CRITICAL"))
    a.violations
  have hmain : determineApprovalStatus a = approvalSpec a := by
    unfold determineApprovalStatus approvalSpec
    simp only [hiff]
  refine ⟨hmain, fun hcrit => ?_⟩
  rw [hmain]
  unfold approvalSpec
  rw [if_pos hcrit]

/-- Witness for `determineApprovalStatus_matches_spec` on an analysis holding
one CRITICAL violation. -/
theorem determineApprovalStatus_matches_spec_witness :
    determineApprovalStatus
        { portfolioImpact := 0, concentrationImpact := 0, liquidityImpact := 0,
          violations := [{ vtype := "VAR_LIMIT", severity := "CRITICAL" }], riskScore := 50 } =
      approvalSpec
        { portfolioImpact := 0, concentrationImpact := 0, liquidityImpact := 0,
          violations := [{ vtype := "VAR_LIMIT", severity := "CRITICAL" }], riskScore := 50 } ∧
    (determineApprovalStatus
        { portfolioImpact := 0, concentrationImpact := 0, liquidityImpact := 0,
          violations := [{ vtype := "VAR_LIMIT", severity := "CRITICAL" }], riskScore := 50 }).1
      = false := by
  have h := determineApprovalStatus_matches_spec
    { portfolioImpact := 0, concentrationImpact := 0, liquidityImpact := 0,
      violations := [{ vtype := "VAR_LIMIT", severity := "CRITICAL" }], riskScore := 50 }
  exact ⟨h.1, h.2 (by decide)⟩

/-- **C10**: `determineApprovalStatus` never returns
`(approved, requiresReview) = (true, true)`: the only reachable outcomes are
approve-without-review, reject-with-review, and reject-without-review. -/
theorem determineApprovalStatus_never_approved_and_review (a : TradeRiskAnalysis) :
    determineApprovalStatus a ≠ (true, true) := by
  simp only [determineApprovalStatus]
  split_ifs <;> simp

theorem severity_fold_eq_aux (violations : List RiskViolation) (c : ℚ) :
    violations.foldl (fun s v => s + severityPoints v.severity) c =
      c + 30 * (countSeverity violations "CRITICAL" : ℚ)
        + 20 * (countSeverity violations "VIOLATION" : ℚ)
        + 10 * (countSeverity violations "WARNING" : ℚ) := by
  induction violations generalizing c with
  | nil => simp [countSeverity]
  | cons v vs ih =>
      rw [List.foldl_cons, ih]
      unfold countSeverity severityPoints
      by_cases h1 : v.severity = "CRITICAL"
      · simp only [List.filter_cons, h1]
        norm_num
        push_cast
        ring
      · by_cases h2 : v.severity = "VIOLATION"
        · simp only [List.filter_cons, h1, h2]
          norm_num
          push_cast
          ring
        · by_cases h3 : v.severity = "WARNING"
          · simp only [List.filter_cons, h1, h2, h3]
            norm_num
            push_cast
            ring
          · simp only [List.filter_cons, h1, h2, h3]
            norm_num

/-- **C8**: `calculateRiskScore` equals the specified formula
(`riskScoreSpec`: 30/20/10 points per CRITICAL/VIOLATION/WARNING plus
`portfolioImpact×20 + concentrationImpact×100×15 + liquidityImpact×15`,
capped at 100), and under nonnegative impacts — which is what the
evaluator's checks produce (a fixed 0.02, a squared-weight HHI increment,
and a fixed 0.05) — the score lies in [0, 100]. -/
theorem calculateRiskScore_spec (a : TradeRiskAnalysis) :
    calculateRiskScore a = riskScoreSpec a ∧
    (0 ≤ a.portfolioImpact → 0 ≤ a.concentrationImpact → 0 ≤ a.liquidityImpact →
      0 ≤ calculateRiskScore a ∧ calculateRiskScore a ≤ 100) := by
  have hfold := severity_fold_eq_aux a.violations 0
  have hc : (0 : ℚ) ≤ (countSeverity a.violations "CRITICAL" : ℚ) := Nat.cast_nonneg _
  have hv : (0 : ℚ) ≤ (countSeverity a.violations "VIOLATION" : ℚ) := Nat.cast_nonneg _
  have hw : (0 : ℚ) ≤ (countSeverity a.violations "WARNING" : ℚ) := Nat.cast_nonneg _
  constructor
  · unfold calculateRiskScore riskScoreSpec
    rw [hfold]
    by_cases h : (0 : ℚ) + 30 * (countSeverity a.violations "CRITICAL" : ℚ)
        + 20 * (countSeverity a.violations "VIOLATION" : ℚ)
        + 10 * (countSeverity a.violations "WARNING" : ℚ)
        + a.portfolioImpact * 20 + a.concentrationImpact * 100 * 15
        + a.liquidityImpact * 15 > 100
    · rw [if_pos h, eq_comm, min_eq_right]
      linarith
    · rw [if_neg h, eq_comm, min_eq_left]
      · ring
      · linarith
  · intro h1 h2 h3
    have hp1 : 0 ≤ a.portfolioImpact * 20 := by positivity
    have hp2 : 0 ≤ a.concentrationImpact * 100 * 15 := by positivity
    have hp3 : 0 ≤ a.liquidityImpact * 15 := by positivity
    simp only [calculateRiskScore]
    rw [hfold]
    constructor
    · split_ifs with h
      · norm_num
      · linarith
    · split_ifs with h
      · norm_num
      · linarith

/-- Witness for `calculateRiskScore_spec` on an analysis with the evaluator's
fixed impacts 0.02 and 0.05, a zero concentration increment and one WARNING
violation. -/
theorem calculateRiskScore_spec_witness :
    calculateRiskScore
        { portfolioImpact := 1 / 50, concentrationImpact := 0, liquidityImpact := 1 / 20,
          violations := [{ vtype := "STOP_LOSS_REQUIRED", severity := "WARNING" }],
          riskScore := 0 } =
      riskScoreSpec
        { portfolioImpact := 1 / 50, concentrationImpact := 0, liquidityImpact := 1 / 20,
          violations := [{ vtype := "STOP_LOSS_REQUIRED", severity := "WARNING" }],
          riskScore := 0 } ∧
    (0 ≤ calculateRiskScore
        { portfolioImpact := 1 / 50, concentrationImpact := 0, liquidityImpact := 1 / 20,
          violations := [{ vtype := "STOP_LOSS_REQUIRED", severity := "WARNING" }],
          riskScore := 0 } ∧
      calculateRiskScore
        { portfolioImpact := 1 / 50, concentrationImpact := 0, liquidityImpact := 1 / 20,
          violations := [{ vtype := "STOP_LOSS_REQUIRED", severity := "WARNING" }],
          riskScore := 0 } ≤ 100) := by
  have h := calculateRiskScore_spec
    { portfolioImpact := 1 / 50, concentrationImpact := 0, liquidityImpact := 1 / 20,
      violations := [{ vtype := "STOP_LOSS_REQUIRED", severity := "WARNING" }],
      riskScore := 0 }
  exact ⟨h.1, h.2 (by norm_num) (by norm_num) (by norm_num)⟩

theorem volumeDeduction_bounds (positionValue avgVolume : ℚ) :
    0 ≤ volumeDeduction positionValue avgVolume ∧
      volumeDeduction positionValue avgVolume ≤ 25 := by
  simp only [volumeDeduction]
  split_ifs <;> norm_num

theorem spreadDeduction_bounds (spread : ℚ) :
    0 ≤ spreadDeduction spread ∧ spreadDeduction spread ≤ 25 := by
  simp only [spreadDeduction]
  split_ifs <;> norm_num

theorem marketCapDeduction_bounds (marketCap : ℚ) :
    0 ≤ marketCapDeduction marketCap ∧ marketCapDeduction marketCap ≤ 25 := by
  simp only [marketCapDeduction]
  split_ifs <;> norm_num

theorem assessMarketDepth_bounds (depth : MarketDepth) (positionValue : ℚ) :
    0 ≤ assessMarketDepth depth positionValue ∧
      assessMarketDepth depth positionValue ≤ 1 := by
  simp only [assessMarketDepth]
  split_ifs <;> norm_num

theorem depthDeduction_bounds (positionValue : ℚ) (depth : Option MarketDepth) :
    0 ≤ depthDeduction positionValue depth ∧ depthDeduction positionValue depth ≤ 25 := by
  cases depth with
  | none => simp [depthDeduction]
  | some d =>
      have h := assessMarketDepth_bounds d positionValue
      simp only [depthDeduction]
      constructor <;> nlinarith [h.1, h.2]

theorem calculateLiquidityScore_bounds (avgVolume spread marketCap positionValue : ℚ)
    (depth : Option MarketDepth) :
    0 ≤ calculateLiquidityScore avgVolume spread marketCap positionValue depth ∧
      calculateLiquidityScore avgVolume spread marketCap positionValue depth ≤ 100 := by
  have h1 := volumeDeduction_bounds positionValue avgVolume
  have h2 := spreadDeduction_bounds spread
  have h3 := marketCapDeduction_bounds marketCap
  have h4 := depthDeduction_bounds positionValue depth
  unfold calculateLiquidityScore
  constructor
  · exact le_max_left 0 _
  · apply max_le (by norm_num)
    linarith [h1.1, h2.1, h3.1, h4.1]

theorem liquidFactor_bounds (liquidityClass : String) :
    0 ≤ liquidFactor liquidityClass ∧ liquidFactor liquidityClass ≤ 1 := by
  simp only [liquidFactor]
  split_ifs <;> norm_num

theorem totalLiquidValue_bounds (sqrtFn : ℚ → ℚ) (md : MarketDataProvider)
    (positions : List Position) (hmv : ∀ p ∈ positions, 0 ≤ p.marketValue) :
    0 ≤ totalLiquidValue sqrtFn md positions ∧
      totalLiquidValue sqrtFn md positions ≤ (positions.map Position.marketValue).sum := by
  induction positions with
  | nil => simp [totalLiquidValue]
  | cons p ps ih =>
      have hp : 0 ≤ p.marketValue := hmv p (List.mem_cons_self p ps)
      have ihh := ih fun q hq => hmv q (List.mem_cons_of_mem p hq)
      have hf := liquidFactor_bounds (analyzePositionLiquidity sqrtFn md p).liquidityClass
      have hmve : (analyzePositionLiquidity sqrtFn md p).marketValue = p.marketValue := rfl
      have hterm0 : 0 ≤ liquidFactor (analyzePositionLiquidity sqrtFn md p).liquidityClass
          * (analyzePositionLiquidity sqrtFn md p).marketValue := by
        rw [hmve]
        exact mul_nonneg hf.1 hp
      have hterm1 : liquidFactor (analyzePositionLiquidity sqrtFn md p).liquidityClass
          * (analyzePositionLiquidity sqrtFn md p).marketValue ≤ p.marketValue := by
        rw [hmve]
        calc liquidFactor (analyzePositionLiquidity sqrtFn md p).liquidityClass * p.marketValue
            ≤ 1 * p.marketValue := mul_le_mul_of_nonneg_right hf.2 hp
          _ = p.marketValue := one_mul _
      simp only [totalLiquidValue, List.map_cons, List.sum_cons] at ihh hterm0 hterm1 ⊢
      constructor
      · linarith [ihh.1]
      · linarith [ihh.2]

/-- **C5 counterexample**: the claim asserts the liquidity ratio is inside
[0, 1] for *every* positions list and *every* portfolio value; with one CASH
position of market value 100 and a portfolio value of 50 the ratio is 2. -/
theorem liquidityRatio_exceeds_one :
    (CalculateLiquidityResult id mdZero [cashPosition] 50).liquidityRatio = some 2 ∧
    ¬ ((2 : ℚ) ≤ 1) := by
  constructor
  · simp only [CalculateLiquidityResult, totalLiquidValue, List.map_cons, List.map_nil,
      List.sum_cons, List.sum_nil, analyzePositionLiquidity, classifyLiquidity,
      liquidFactor, cashPosition, mdZero, fdiv]
    norm_num
  · norm_num

/-- **C5 (amended)**: the per-position liquidity score is always in [0, 100];
the portfolio liquidity ratio is in [0, 1] whenever the supplied portfolio
value is positive, position market values are nonnegative and their total
does not exceed the portfolio value (the ratio divides by the caller-supplied
`portfolioValue`, so it can exceed 1 when that invariant is broken). -/
theorem liquidity_score_and_ratio_bounds (sqrtFn : ℚ → ℚ) (md : MarketDataProvider)
    (positions : List Position) (portfolioValue : ℚ)
    (hpv : 0 < portfolioValue)
    (hmv : ∀ p ∈ positions, 0 ≤ p.marketValue)
    (hsum : (positions.map Position.marketValue).sum ≤ portfolioValue) :
    (∀ avgVolume spread marketCap positionValue depth,
        0 ≤ calculateLiquidityScore avgVolume spread marketCap positionValue depth ∧
        calculateLiquidityScore avgVolume spread marketCap positionValue depth ≤ 100) ∧
    (CalculateLiquidityResult sqrtFn md positions portfolioValue).liquidityRatio =
        some (totalLiquidValue sqrtFn md positions / portfolioValue) ∧
    0 ≤ totalLiquidValue sqrtFn md positions / portfolioValue ∧
    totalLiquidValue sqrtFn md positions / portfolioValue ≤ 1 := by
  have hb := totalLiquidValue_bounds sqrtFn md positions hmv
  refine ⟨fun a s m pv d => calculateLiquidityScore_bounds a s m pv d, ?_, ?_, ?_⟩
  · simp [CalculateLiquidityResult, fdiv, ne_of_gt hpv]
  · exact div_nonneg hb.1 (le_of_lt hpv)
  · rw [div_le_one hpv]
    exact le_trans hb.2 hsum

/-- Witness for `liquidity_score_and_ratio_bounds` with no positions and
portfolio value 1. -/
theorem liquidity_score_and_ratio_bounds_witness :
    (∀ avgVolume spread marketCap positionValue depth,
        0 ≤ calculateLiquidityScore avgVolume spread marketCap positionValue depth ∧
        calculateLiquidityScore avgVolume spread marketCap positionValue depth ≤ 100) ∧
    (CalculateLiquidityResult id mdZero [] 1).liquidityRatio =
        some (totalLiquidValue id mdZero [] / 1) ∧
    0 ≤ totalLiquidValue id mdZero [] / 1 ∧
    totalLiquidValue id mdZero [] / 1 ≤ 1 :=
  liquidity_score_and_ratio_bounds id mdZero [] 1 (by norm_num)
    (by intro p hp; cases hp) (by simp [totalLiquidValue])

/-- **C6 counterexample**: the claim asserts `CalculateLiquidity(positions, 0)`
returns `liquidityRatio = 0`; the ratio is the unguarded float division
`totalLiquidValue / 0`, which is non-finite (`none` in the embedding), not
the number 0. -/
theorem zero_portfolio_ratio_not_finite :
    (CalculateLiquidityResult id mdZero [] 0).liquidityRatio = none ∧
    (none : Option ℚ) ≠ some 0 := by
  constructor
  · simp [CalculateLiquidityResult, fdiv]
  · simp

/-- **C6 (amended)**: the float-based `CalculateLiquidity` divides by the
caller-supplied portfolio value unguarded, so at portfolio value 0 its ratio
is non-finite; the zero-total short-circuit to 0 lives in the decimal-based
`CalculateLiquidityRatio`, which returns 0 whenever the summed position
value is zero. -/
theorem zero_portfolio_ratio (sqrtFn : ℚ → ℚ) (md : MarketDataProvider)
    (positions positionsD : List Position)
    (hz : (positionsD.map Position.marketValue).sum = 0) :
    (CalculateLiquidityResult sqrtFn md positions 0).liquidityRatio = none ∧
    CalculateLiquidityRatio positionsD = 0 := by
  constructor
  · simp [CalculateLiquidityResult, fdiv]
  · simp [CalculateLiquidityRatio, hz]

/-- Witness for `zero_portfolio_ratio` with a CASH position on the float side
and no positions on the decimal side. -/
theorem zero_portfolio_ratio_witness :
    (CalculateLiquidityResult id mdZero [cashPosition] 0).liquidityRatio = none ∧
    CalculateLiquidityRatio [] = 0 :=
  zero_portfolio_ratio id mdZero [cashPosition] [] (by simp)

/-- **C7 counterexample**: the claim asserts a zero-volume position is
classified ILLIQUID for every asset type apart from the
GOVERNMENT_BOND/CASH overrides; a CORPORATE_BOND with score 80 and the
999-day fallback is classified LIQUID. -/
theorem corporate_bond_not_illiquid :
    classifyLiquidity 80 (calculateDaysToLiquidate 1000 0 (1 / 10)) "CORPORATE_BOND"
        = "LIQUID" ∧
    ("LIQUID" : String) ≠ "ILLIQUID" := by
  constructor
  · have hd : calculateDaysToLiquidate 1000 0 (1 / 10) = 999 := by
      simp [calculateDaysToLiquidate]
    rw [hd]
    unfold classifyLiquidity
    rw [if_neg (by decide), if_pos rfl, if_pos (by norm_num : (80 : ℚ) > 70)]
  · decide

/-- **C7 (amended)**: with zero average daily volume, days-to-liquidate is
999 under every participation rate, and the position is classified ILLIQUID
for every asset type that has no override — the overrides being
GOVERNMENT_BOND, CASH and MONEY_MARKET (always HIGHLY_LIQUID) and
CORPORATE_BOND and CRYPTO (score-based classes). -/
theorem zero_volume_days_and_class (quantity participationRate score : ℚ)
    (assetType : String)
    (h1 : assetType ≠ "GOVERNMENT_BOND") (h2 : assetType ≠ "CASH")
    (h3 : assetType ≠ "MONEY_MARKET") (h4 : assetType ≠ "CORPORATE_BOND")
    (h5 : assetType ≠ "CRYPTO") :
    calculateDaysToLiquidate quantity 0 participationRate = 999 ∧
    classifyLiquidity score (calculateDaysToLiquidate quantity 0 participationRate)
        assetType = "ILLIQUID" := by
  have hd : calculateDaysToLiquidate quantity 0 participationRate = 999 := by
    simp [calculateDaysToLiquidate]
  refine ⟨hd, ?_⟩
  rw [hd]
  unfold classifyLiquidity
  rw [if_neg (by simp [h1, h2, h3]), if_neg h4, if_neg h5,
    if_neg (by rintro ⟨-, hc⟩; norm_num at hc),
    if_neg (by rintro ⟨-, hc⟩; norm_num at hc),
    if_neg (by rintro ⟨-, hc⟩; norm_num at hc)]

/-- Witness for `zero_volume_days_and_class` on a STOCK position. -/
theorem zero_volume_days_and_class_witness :
    calculateDaysToLiquidate 5 0 (1 / 10) = 999 ∧
    classifyLiquidity 95 (calculateDaysToLiquidate 5 0 (1 / 10)) "STOCK" = "ILLIQUID" :=
  zero_volume_days_and_class 5 (1 / 10) 95 "STOCK" (by decide) (by decide) (by decide)
    (by decide) (by decide)

/-- **C9 counterexample**: the claim asserts `AssessLiquidityRisk` maps a
liquidity ratio of 0.25 to HIGH_RISK; with the constructor's thresholds
(0.7, 0.2) it returns MEDIUM_RISK, since 0.25 ≥ 0.2. -/
theorem assessLiquidityRisk_quarter :
    AssessLiquidityRisk NewLiquidityCalculatorD (25 / 100) = "MEDIUM_RISK" ∧
    AssessLiquidityRisk NewLiquidityCalculatorD (25 / 100) ≠ "HIGH_RISK" := by
  have h : AssessLiquidityRisk NewLiquidityCalculatorD (25 / 100) = "MEDIUM_RISK" := by
    simp only [AssessLiquidityRisk, NewLiquidityCalculatorD]
    norm_num
  exact ⟨h, by rw [h]; decide⟩

/-- **C9 (amended)**: `AssessLiquidityRisk` (thresholds 0.7/0.2) maps 0.25
and 0.5 to MEDIUM_RISK and 0.8 to LOW_RISK; the 0.25 → HIGH_RISK mapping in
the spec scenario belongs to the risk engine's `CalculateLiquidityRisk`
assessment (thresholds 0.3/0.7). -/
theorem liquidityRisk_levels :
    AssessLiquidityRisk NewLiquidityCalculatorD (25 / 100) = "MEDIUM_RISK" ∧
    AssessLiquidityRisk NewLiquidityCalculatorD (50 / 100) = "MEDIUM_RISK" ∧
    AssessLiquidityRisk NewLiquidityCalculatorD (80 / 100) = "LOW_RISK" ∧
    riskAssessmentOfRatio (25 / 100) = "HIGH_RISK" ∧
    riskAssessmentOfRatio (50 / 100) = "MEDIUM_RISK" ∧
    riskAssessmentOfRatio (80 / 100) = "LOW_RISK" := by
  refine ⟨?_, ?_, ?_, ?_, ?_, ?_⟩ <;>
    · simp only [AssessLiquidityRisk, NewLiquidityCalculatorD, riskAssessmentOfRatio]
      norm_num

theorem alertExists_false_of_fresh (db : List Alert) (now : ℤ) (pid : ℕ) (ty : String)
    (w : ℤ) (hfresh : ∀ a ∈ db, ¬(a.portfolioId = pid ∧ a.alertType = ty)) :
    alertExists db now pid ty w = false := by
  rw [alertExists, List.any_eq_false]
  intro a ha
  simp only [decide_eq_true_eq]
  intro hp
  exact hfresh a ha ⟨hp.1, hp.2.1⟩

theorem raiseAlert_of_exists {db : List Alert} {now : ℤ} {pid : ℕ} {ty : String}
    {w : ℤ} (sev : String) (h : alertExists db now pid ty w = true) :
    raiseAlert db now pid ty w sev = (db, false) := by
  simp [raiseAlert, h]

theorem raiseAlert_of_not_exists {db : List Alert} {now : ℤ} {pid : ℕ} {ty : String}
    {w : ℤ} (sev : String) (h : alertExists db now pid ty w = false) :
    raiseAlert db now pid ty w sev
      = ({ portfolioId := pid, alertType := ty, severity := sev,
           status := "ACTIVE", createdAt := now } :: db, true) := by
  simp [raiseAlert, h]

theorem persistedCount_cons_match {a : Alert} {db : List Alert} {pid : ℕ} {ty : String}
    (h1 : a.portfolioId = pid) (h2 : a.alertType = ty) :
    persistedCount (a :: db) pid ty = persistedCount db pid ty + 1 := by
  unfold persistedCount
  rw [List.filter_cons, if_pos (by simp [h1, h2])]
  simp

theorem persistedCount_zero {db : List Alert} {pid : ℕ} {ty : String}
    (hfresh : ∀ a ∈ db, ¬(a.portfolioId = pid ∧ a.alertType = ty)) :
    persistedCount db pid ty = 0 := by
  unfold persistedCount
  have h : db.filter (fun a => decide (a.portfolioId = pid ∧ a.alertType = ty)) = [] := by
    rw [List.filter_eq_nil_iff]
    intro a ha
    simp only [decide_eq_true_eq]
    exact hfresh a ha
  rw [h]
  rfl

/-- **C4**: starting from a store holding no alert of the given
(portfolio, type), a first raise persists and publishes; a second raise
within the dedup window is suppressed (store unchanged, nothing published),
leaving exactly one persisted alert; a second raise at or after the window
persists again, leaving exactly two.  The generator functions instantiate
this pattern with their type-specific windows: RISK_BREACH 600 s,
LIQUIDITY_RISK 900 s, COMPLIANCE_VIOLATION 300 s, SUSPICIOUS_ACTIVITY
3600 s (AML) and 1800 s (velocity). -/
theorem alertEngine_dedup (db : List Alert) (portfolioId : ℕ)
    (alertType sev1 sev2 : String) (window t1 t2 : ℤ)
    (hfresh : ∀ a ∈ db, ¬(a.portfolioId = portfolioId ∧ a.alertType = alertType)) :
    ((raiseAlert db t1 portfolioId alertType window sev1).2 = true ∧
      persistedCount (raiseAlert db t1 portfolioId alertType window sev1).1
        portfolioId alertType = 1) ∧
    (t2 - t1 < window →
      raiseAlert (raiseAlert db t1 portfolioId alertType window sev1).1
          t2 portfolioId alertType window sev2
        = ((raiseAlert db t1 portfolioId alertType window sev1).1, false) ∧
      persistedCount (raiseAlert (raiseAlert db t1 portfolioId alertType window sev1).1
          t2 portfolioId alertType window sev2).1 portfolioId alertType = 1) ∧
    (window ≤ t2 - t1 →
      (raiseAlert (raiseAlert db t1 portfolioId alertType window sev1).1
          t2 portfolioId alertType window sev2).2 = true ∧
      persistedCount (raiseAlert (raiseAlert db t1 portfolioId alertType window sev1).1
          t2 portfolioId alertType window sev2).1 portfolioId alertType = 2) ∧
    (∀ s, generateVaRAlert db t1 portfolioId s
        = raiseAlert db t1 portfolioId "RISK_BREACH" 600
            (if s = "CRITICAL" then "HIGH" else "MEDIUM")) ∧
    (∀ s, generateLiquidityAlert db t1 portfolioId s
        = raiseAlert db t1 portfolioId "LIQUIDITY_RISK" 900
            (if s = "HIGH_RISK" then "HIGH" else "MEDIUM")) ∧
    (∀ s, generatePositionLimitAlert db t1 portfolioId s
        = raiseAlert db t1 portfolioId "COMPLIANCE_VIOLATION" 300
            (if s = "CRITICAL" then "HIGH" else "MEDIUM")) ∧
    generateAMLAlert db t1 portfolioId
        = raiseAlert db t1 portfolioId "SUSPICIOUS_ACTIVITY" 3600 "HIGH" ∧
    generateVelocityAlert db t1 portfolioId
        = raiseAlert db t1 portfolioId "SUSPICIOUS_ACTIVITY" 1800 "MEDIUM" := by
  have h0 := alertExists_false_of_fresh db t1 portfolioId alertType window hfresh
  have hr1 := raiseAlert_of_not_exists sev1 h0
  have hz := persistedCount_zero hfresh
  have hcount1 : persistedCount (raiseAlert db t1 portfolioId alertType window sev1).1
      portfolioId alertType = 1 := by
    rw [hr1]
    rw [persistedCount_cons_match rfl rfl, hz]
  refine ⟨⟨by rw [hr1], hcount1⟩, ?_, ?_, fun s => rfl, fun s => rfl, fun s => rfl, rfl, rfl⟩
  · intro hwin
    have hex : alertExists (raiseAlert db t1 portfolioId alertType window sev1).1
        t2 portfolioId alertType window = true := by
      rw [hr1]
      show alertExists (_ :: db) t2 portfolioId alertType window = true
      rw [alertExists, List.any_cons, Bool.or_eq_true]
      left
      rw [decide_eq_true_eq]
      refine ⟨rfl, rfl, rfl, ?_⟩
      show t2 - window < t1
      omega
    have hr2 := raiseAlert_of_exists sev2 hex
    refine ⟨hr2, ?_⟩
    rw [hr2]
    exact hcount1
  · intro hwin
    have hdb2 := alertExists_false_of_fresh db t2 portfolioId alertType window hfresh
    have hex : alertExists (raiseAlert db t1 portfolioId alertType window sev1).1
        t2 portfolioId alertType window = false := by
      rw [hr1]
      show alertExists (_ :: db) t2 portfolioId alertType window = false
      rw [alertExists] at hdb2 ⊢
      rw [List.any_cons, hdb2, Bool.or_false, decide_eq_false_iff_not]
      rintro ⟨-, -, -, htime⟩
      have ht1 : t2 - window < t1 := htime
      omega
    have hr2 := raiseAlert_of_not_exists sev2 hex
    refine ⟨by rw [hr2], ?_⟩
    rw [hr2, hr1]
    rw [persistedCount_cons_match rfl rfl, persistedCount_cons_match rfl rfl, hz]

/-- Witness for `alertEngine_dedup`: an empty store, portfolio 1,
RISK_BREACH alerts, window 600 s, raises at t = 0 and t = 60. -/
theorem alertEngine_dedup_witness :
    ((raiseAlert [] 0 1 "RISK_BREACH" 600 "HIGH").2 = true ∧
      persistedCount (raiseAlert [] 0 1 "RISK_BREACH" 600 "HIGH").1 1 "RISK_BREACH" = 1) ∧
    ((60 : ℤ) - 0 < 600 →
      raiseAlert (raiseAlert [] 0 1 "RISK_BREACH" 600 "HIGH").1 60 1 "RISK_BREACH" 600 "HIGH"
        = ((raiseAlert [] 0 1 "RISK_BREACH" 600 "HIGH").1, false) ∧
      persistedCount (raiseAlert (raiseAlert [] 0 1 "RISK_BREACH" 600 "HIGH").1
          60 1 "RISK_BREACH" 600 "HIGH").1 1 "RISK_BREACH" = 1) ∧
    ((600 : ℤ) ≤ 60 - 0 →
      (raiseAlert (raiseAlert [] 0 1 "RISK_BREACH" 600 "HIGH").1
          60 1 "RISK_BREACH" 600 "HIGH").2 = true ∧
      persistedCount (raiseAlert (raiseAlert [] 0 1 "RISK_BREACH" 600 "HIGH").1
          60 1 "RISK_BREACH" 600 "HIGH").1 1 "RISK_BREACH" = 2) ∧
    (∀ s, generateVaRAlert [] 0 1 s
        = raiseAlert [] 0 1 "RISK_BREACH" 600 (if s = "CRITICAL" then "HIGH" else "MEDIUM")) ∧
    (∀ s, generateLiquidityAlert [] 0 1 s
        = raiseAlert [] 0 1 "LIQUIDITY_RISK" 900
            (if s = "HIGH_RISK" then "HIGH" else "MEDIUM")) ∧
    (∀ s, generatePositionLimitAlert [] 0 1 s
        = raiseAlert [] 0 1 "COMPLIANCE_VIOLATION" 300
            (if s = "CRITICAL" then "HIGH" else "MEDIUM")) ∧
    generateAMLAlert [] 0 1 = raiseAlert [] 0 1 "SUSPICIOUS_ACTIVITY" 3600 "HIGH" ∧
    generateVelocityAlert [] 0 1 = raiseAlert [] 0 1 "SUSPICIOUS_ACTIVITY" 1800 "MEDIUM" :=
  alertEngine_dedup [] 1 "RISK_BREACH" "HIGH" "HIGH" 600 0 60 (by simp)

end RiskMonitor
